import Mathlib

/-!
Verification of the glTF-Blender-IO export pipeline controller
(`io_scene_gltf2/blender/exp/gltf2_blender_export.py`).

The Python module is shallowly embedded below:
  * Python JSON-like values (the document tree handed to `__fix_json`) become
    the inductive `Json`; Python `dict` is an insertion-ordered association
    list, Python `float` is a rational together with the non-finite values
    `nan`, `inf`, `-inf` (the only property of a float the code inspects is
    whether `int(x) == x`, which for a finite float means the value is an
    integer and otherwise raises `ValueError`/`OverflowError`).
  * Fallible Python code becomes `Except`-valued Lean functions; the string
    (or `PyExc`) carried by `.error` names the exception raised.
  * Host-environment calls (console logging, progress UI, file system) have
    no effect on the state the claims are about and are noted in the doc
    comment of each embedded function.
-/

namespace GltfExport

/-- A Python float as far as `__fix_json` can observe it: a finite value
(mathematically a rational) or one of the non-finite values. -/
inductive PyFloat where
  | finite : ℚ → PyFloat
  | nan : PyFloat
  | inf : PyFloat
  | ninf : PyFloat
  deriving DecidableEq, Repr

/-- The document tree fed to `__fix_json`: Python `None`, `bool`, `int`,
`float`, `str`, `list` and (insertion-ordered) `dict`. -/
inductive Json where
  | null : Json
  | bool : Bool → Json
  | int : Int → Json
  | float : PyFloat → Json
  | str : String → Json
  | arr : List Json → Json
  | obj : List (String × Json) → Json
  deriving Repr

/-- Embeds the Python test `value is None` on a document-tree value. -/
def Json.is_none : Json → Bool
  | .null => true
  | _ => false

/-- Embeds `__is_empty_collection(value)`:
`(isinstance(value, dict) or isinstance(value, list)) and len(value) == 0`. -/
def __is_empty_collection : Json → Bool
  | .arr xs => xs.isEmpty
  | .obj kvs => kvs.isEmpty
  | _ => false

/-- The `allowed_empty_collections` list of `__should_include_json_value`. -/
def allowed_empty_collections : List String := ["KHR_materials_unlit"]

/-- Embeds `__should_include_json_value(key, value)`: `False` when the value
is `None`, or when it is an empty collection whose key is not in
`allowed_empty_collections`; `True` otherwise. -/
def __should_include_json_value (key : String) (value : Json) : Bool :=
  if value.is_none then false
  else if __is_empty_collection value ∧ key ∉ allowed_empty_collections then false
  else true

mutual

/-- Embeds `__fix_json(obj)`. Dict and list nodes recurse through
`__fix_json_obj` / `__fix_json_list`; a float that is integral is replaced by
the equal integer (`int(obj) == obj` / `return int(obj)`), while `int()` of a
non-finite float raises, embedded as `.error`; every other scalar is returned
unchanged. -/
def __fix_json : Json → Except String Json
  | .obj kvs =>
    match __fix_json_obj kvs with
    | .error e => .error e
    | .ok kvs' => .ok (.obj kvs')
  | .arr xs =>
    match __fix_json_list xs with
    | .error e => .error e
    | .ok xs' => .ok (.arr xs')
  | .float (.finite q) =>
    if q.den = 1 then .ok (.int q.num) else .ok (.float (.finite q))
  | .float .nan => .error "ValueError: cannot convert float NaN to integer"
  | .float .inf => .error "OverflowError: cannot convert float infinity to integer"
  | .float .ninf => .error "OverflowError: cannot convert float infinity to integer"
  | .null => .ok .null
  | .bool b => .ok (.bool b)
  | .int n => .ok (.int n)
  | .str s => .ok (.str s)

/-- The dict loop of `__fix_json`, in iteration (= insertion) order: a key
`'extras'` with a non-`None` value is copied verbatim (`continue`, no
recursion); a value failing `__should_include_json_value` is skipped; any
other value is recursed into and kept under its key. -/
def __fix_json_obj : List (String × Json) → Except String (List (String × Json))
  | [] => .ok []
  | (key, value) :: rest =>
    if key = "extras" ∧ value.is_none = false then
      match __fix_json_obj rest with
      | .error e => .error e
      | .ok rest' => .ok ((key, value) :: rest')
    else if __should_include_json_value key value then
      match __fix_json value with
      | .error e => .error e
      | .ok value' =>
        match __fix_json_obj rest with
        | .error e => .error e
        | .ok rest' => .ok ((key, value') :: rest')
    else
      __fix_json_obj rest

/-- The list loop of `__fix_json`: every element is recursed into; nothing is
dropped from a list. -/
def __fix_json_list : List Json → Except String (List Json)
  | [] => .ok []
  | v :: rest =>
    match __fix_json v with
    | .error e => .error e
    | .ok v' =>
      match __fix_json_list rest with
      | .error e => .error e
      | .ok rest' => .ok (v' :: rest')

end

mutual

/-- `true` iff every float anywhere in the tree (including below `extras`
keys) is finite. -/
def all_floats_finite : Json → Bool
  | .float (.finite _) => true
  | .float .nan => false
  | .float .inf => false
  | .float .ninf => false
  | .obj kvs => all_floats_finite_obj kvs
  | .arr xs => all_floats_finite_list xs
  | .null => true
  | .bool _ => true
  | .int _ => true
  | .str _ => true

def all_floats_finite_obj : List (String × Json) → Bool
  | [] => true
  | (_, v) :: rest => all_floats_finite v && all_floats_finite_obj rest

def all_floats_finite_list : List Json → Bool
  | [] => true
  | v :: rest => all_floats_finite v && all_floats_finite_list rest

end

mutual

/-- `true` iff the tree contains no `null` anywhere and no empty dict or
list anywhere (so no key can ever be dropped inside it, and no collection in
it can become newly empty). -/
def clean : Json → Bool
  | .null => false
  | .bool _ => true
  | .int _ => true
  | .float _ => true
  | .str _ => true
  | .obj kvs => !kvs.isEmpty && clean_obj kvs
  | .arr xs => !xs.isEmpty && clean_list xs

def clean_obj : List (String × Json) → Bool
  | [] => true
  | (_, v) :: rest => clean v && clean_obj rest

def clean_list : List Json → Bool
  | [] => true
  | v :: rest => clean v && clean_list rest

end

/-!
## The `save` orchestrator, as it acts on the scene's timeline frame

`save(context, export_settings)` is embedded as a function on the only piece
of host state the frame-restoration claims are about: the scene's current
frame (`bpy.context.scene.frame_current`, an integer).  Each fallible stage
(a pre-export callback, `__export` — i.e. gathering, buffer creation and
JSON fixing —, a post-export callback, `__write_file`) is modelled as a
function from the frame to a pair of an optional exception and the frame it
leaves behind, since arbitrary callback code may both raise and move the
timeline.  The mode-switch, the notification and progress calls, and
`time.time()` do not touch the frame and are elided.  The source has no
`try`/`finally`: the restoring `frame_set(int(original_frame))` is only
reached on the success path, and only when `gltf_current_frame` is unset.
-/

/-- A fallible stage acting on the timeline frame: returns `(some e, f)` when
it raises exception `e` leaving the frame at `f`, `(none, f)` otherwise. -/
def FrameStage := Int → Option String × Int

/-- Runs a callback list in registration order, stopping at the first
exception (a raise inside a `for callback in ...: callback(...)` loop aborts
the loop and propagates). -/
def run_callbacks : List FrameStage → Int → Option String × Int
  | [], f => (none, f)
  | cb :: rest, f =>
    match cb f with
    | (some e, f') => (some e, f')
    | (none, f') => run_callbacks rest f'

/-- The parts of `export_settings` that `save`'s frame handling reads. -/
structure SaveSettings where
  gltf_current_frame : Bool
  pre_export_callbacks : List FrameStage
  post_export_callbacks : List FrameStage

/-- Sequencing of two consecutive fallible statements under Python exception
propagation: when the statements so far have raised, the next stage does not
run and the exception (and the frame as it stands) passes through. -/
def stage_seq (r : Option String × Int) (next : FrameStage) : Option String × Int :=
  match r with
  | (some e, f) => (some e, f)
  | (none, f) => next f

/-- Embeds `save(context, export_settings)` as it acts on the timeline frame:
capture `original_frame`; `frame_set(0)` unless `gltf_current_frame`; run the
pre-export callbacks, `__export`, the post-export callbacks and
`__write_file` in that order, each propagating its exception immediately
(there is no `try`/`finally`); on success restore `frame_set(int(original_frame))`
— again only when `gltf_current_frame` is unset — and return `{'FINISHED'}`
(modelled by the exception component being `none`). -/
def save (settings : SaveSettings) (export_stage write_stage : FrameStage)
    (frame0 : Int) : Option String × Int :=
  let original_frame := frame0
  let f1 := if !settings.gltf_current_frame then 0 else frame0
  let r1 := run_callbacks settings.pre_export_callbacks f1
  let r2 := stage_seq r1 export_stage
  let r3 := stage_seq r2 (run_callbacks settings.post_export_callbacks)
  let r4 := stage_seq r3 write_stage
  match r4 with
  | (some e, f) => (some e, f)
  | (none, f5) =>
    (none, if !settings.gltf_current_frame then original_frame else f5)

/-!
## `__create_buffer`

`GlTF2Exporter.finalize_buffer` lives outside this module; it is modelled as
an opaque method of the exporter whose return value (the in-memory payload,
a byte string modelled as `List Nat`) is all `__create_buffer` uses.  Its
side effects (writing an external `.bin`, embedding data URIs) do not reach
`__create_buffer`'s return value.
-/

/-- The exporter as seen by `__create_buffer`: only `finalize_buffer`, taking
the output directory, an optional buffer file name and the `is_glb` flag. -/
structure GlTF2ExporterModel where
  finalize_buffer : String → Option String → Bool → List Nat

/-- The parts of `export_settings` that `__create_buffer` reads. -/
structure BufferSettings where
  gltf_format : String
  gltf_filedirectory : String
  gltf_binaryfilename : String

/-- Embeds `__create_buffer(exporter, export_settings)`: start from
`buffer = bytes()`; in `'GLB'` format the buffer becomes the value returned
by `finalize_buffer(..., is_glb=True)`; in `'GLTF_EMBEDDED'` and in the
remaining (separate `.bin`) case `finalize_buffer` is called only for its
side effects and the empty `buffer` is returned. -/
def __create_buffer (exporter : GlTF2ExporterModel)
    (export_settings : BufferSettings) : List Nat :=
  let buffer : List Nat := []
  if export_settings.gltf_format = "GLB" then
    exporter.finalize_buffer export_settings.gltf_filedirectory none true
  else
    if export_settings.gltf_format = "GLTF_EMBEDDED" then
      let _ := exporter.finalize_buffer export_settings.gltf_filedirectory none false
      buffer
    else
      let _ := exporter.finalize_buffer export_settings.gltf_filedirectory
        (some export_settings.gltf_binaryfilename) false
      buffer

/-!
## `__postprocess_with_gltfpack` and `__write_file`

The exceptions that can cross these functions are embedded as `PyExc`.
`subprocess.run([...], check=True)` returns normally on exit status 0,
raises `subprocess.CalledProcessError` on a non-zero exit status, and raises
`FileNotFoundError` (an `OSError`, not a `CalledProcessError`) when the
executable cannot be launched because it is missing.
-/

/-- The exception classes distinguished by this module's handlers. -/
inductive PyExc where
  | calledProcessError : Nat → PyExc
  | fileNotFoundError : PyExc
  | assertionError : String → PyExc
  | ioError : String → PyExc
  deriving DecidableEq, Repr

/-- The possible outcomes of launching the external gltfpack process. -/
inductive GltfpackRunOutcome where
  | success : GltfpackRunOutcome
  | nonZeroExit : Nat → GltfpackRunOutcome
  | launchFailure : GltfpackRunOutcome
  deriving DecidableEq, Repr

/-- Embeds `subprocess.run(cmd, check=True)` for the gltfpack invocation. -/
def subprocess_run_check : GltfpackRunOutcome → Except PyExc Unit
  | .success => .ok ()
  | .nonZeroExit code => .error (.calledProcessError code)
  | .launchFailure => .error .fileNotFoundError

/-- The knobs of `export_settings` read by `__postprocess_with_gltfpack`
when building the gltfpack command line. -/
structure RepackOptions where
  gltf_gltfpack_tc : Bool
  gltf_gltfpack_tq : Int
  gltf_gltfpack_si : Int
  gltf_gltfpack_sa : Bool
  gltf_gltfpack_slb : Bool
  gltf_gltfpack_vp : Int
  gltf_gltfpack_vt : Int
  gltf_gltfpack_vn : Int
  gltf_gltfpack_vc : Int
  gltf_gltfpack_vpi : String
  gltf_gltfpack_noq : Bool

/-- The `match export_settings['gltf_gltfpack_vpi']` statement: each of the
three enum members appends exactly one of the mutually exclusive
position-encoding flags; any other value appends nothing. -/
def gltfpack_vpi_flag (s : RepackOptions) : List String :=
  match s.gltf_gltfpack_vpi with
  | "Integer" => ["-vpi"]
  | "Normalized" => ["-vpn"]
  | "Floating-point" => ["-vpf"]
  | _ => []

/-- The `options` list built by `__postprocess_with_gltfpack`, one appended
segment per Python statement, in statement order; the f-string formatting of
an integer knob is `toString`. -/
def gltfpack_options (s : RepackOptions) : List String :=
  ([] : List String)
  ++ (if s.gltf_gltfpack_tc then ["-tc"] else [])
  ++ ["-tq", toString s.gltf_gltfpack_tq]
  ++ ["-si", toString s.gltf_gltfpack_si]
  ++ (if s.gltf_gltfpack_sa then ["-sa"] else [])
  ++ (if s.gltf_gltfpack_slb then ["-slb"] else [])
  ++ ["-vp", toString s.gltf_gltfpack_vp]
  ++ ["-vt", toString s.gltf_gltfpack_vt]
  ++ ["-vn", toString s.gltf_gltfpack_vn]
  ++ ["-vc", toString s.gltf_gltfpack_vc]
  ++ gltfpack_vpi_flag s
  ++ (if s.gltf_gltfpack_noq then ["-noq"] else [])

/-- The `parameters` list of `__postprocess_with_gltfpack`. -/
def gltfpack_parameters (input output : String) : List String :=
  ["-i", input, "-o", output]

/-- The full argument vector handed to `subprocess.run`:
`[gltfpack_binary_file_path] + options + parameters`. -/
def gltfpack_command (binary : String) (s : RepackOptions)
    (input output : String) : List String :=
  [binary] ++ gltfpack_options s ++ gltfpack_parameters input output

/-- Modelled from the spec's repack CLI grammar, written segment by segment
from its words: `<tool> [-tc] -tq <n> -si <n> [-sa] [-slb] -vp <n> -vt <n>
-vn <n> -vc <n> (-vpi | -vpn | -vpf) [-noq] -i <input> -o <output>`, where a
bracketed flag is present exactly when the corresponding boolean option is
set, and the three-way position-encoding choice contributes one flag.  This
definition follows the spec, to be compared with `gltfpack_command`, which
follows the source. -/
def spec_gltfpack_cli (tool : String) (s : RepackOptions)
    (input output : String) : List String :=
  [tool]
  ++ (if s.gltf_gltfpack_tc then ["-tc"] else [])
  ++ ["-tq", toString s.gltf_gltfpack_tq, "-si", toString s.gltf_gltfpack_si]
  ++ (if s.gltf_gltfpack_sa then ["-sa"] else [])
  ++ (if s.gltf_gltfpack_slb then ["-slb"] else [])
  ++ ["-vp", toString s.gltf_gltfpack_vp, "-vt", toString s.gltf_gltfpack_vt,
      "-vn", toString s.gltf_gltfpack_vn, "-vc", toString s.gltf_gltfpack_vc]
  ++ gltfpack_vpi_flag s
  ++ (if s.gltf_gltfpack_noq then ["-noq"] else [])
  ++ ["-i", input, "-o", output]

/-- Embeds the `try`/`except` of `__postprocess_with_gltfpack`: the
subprocess call is wrapped in `try: ... except subprocess.CalledProcessError:
print_console('ERROR', ...)`, so a non-zero exit is swallowed (logged only)
while any other exception — in particular the `FileNotFoundError` of a
missing binary — propagates.  Path construction and `os.makedirs` are elided
(they touch no state the claims are about). -/
def __postprocess_with_gltfpack (outcome : GltfpackRunOutcome) : Except PyExc Unit :=
  match subprocess_run_check outcome with
  | .ok () => .ok ()
  | .error (.calledProcessError _) => .ok ()
  | .error e => .error e

/-- The body of the `try` block in `__write_file`: `gltf2_io_export.save_gltf`
(modelled by its outcome `save_gltf_result`), then, when
`export_settings['gltf_use_gltfpack']` is set, `__postprocess_with_gltfpack`. -/
def __write_file_body (save_gltf_result : Except PyExc Unit)
    (use_gltfpack : Bool) (outcome : GltfpackRunOutcome) : Except PyExc Unit :=
  match save_gltf_result with
  | .error e => .error e
  | .ok () => if use_gltfpack then __postprocess_with_gltfpack outcome else .ok ()

/-- Embeds `__write_file`: the result is the `try` body's outcome paired with
whether the `except AssertionError` handler ran (printing the traceback and
per-frame line/statement diagnostics).  Only an `AssertionError` is caught
there, and it is re-raised unchanged (`raise e`); every other exception
propagates without the diagnostic. -/
def __write_file (save_gltf_result : Except PyExc Unit)
    (use_gltfpack : Bool) (outcome : GltfpackRunOutcome) :
    Except PyExc Unit × Bool :=
  match __write_file_body save_gltf_result use_gltfpack outcome with
  | .error (.assertionError m) => (.error (.assertionError m), true)
  | r => (r, false)

/-! ## Concrete sample inputs used by witnesses and counterexamples -/

/-- A stage that raises, leaving the frame where it was. -/
def raising_stage : FrameStage := fun f => (some "RuntimeError: boom", f)

/-- A stage that succeeds without touching the frame. -/
def identity_stage : FrameStage := fun f => (none, f)

/-- Settings whose first pre-export callback raises, with
`gltf_current_frame` unset. -/
def cex_save_settings : SaveSettings :=
  ⟨false, [raising_stage], []⟩

/-- Settings with no callbacks and `gltf_current_frame` unset. -/
def witness_save_settings : SaveSettings :=
  ⟨false, [], []⟩

/-- An exporter whose `finalize_buffer` returns the payload `[1, 2, 3]`. -/
def sample_exporter : GlTF2ExporterModel :=
  ⟨fun _ _ _ => [1, 2, 3]⟩

/-- Buffer settings for `'GLB'` format. -/
def sample_buffer_settings_glb : BufferSettings :=
  ⟨"GLB", "outdir", "scene.bin"⟩

/-- Buffer settings for `'GLTF_EMBEDDED'` format. -/
def sample_buffer_settings_embedded : BufferSettings :=
  ⟨"GLTF_EMBEDDED", "outdir", "scene.bin"⟩

/-- Buffer settings for the separate-`.bin` (`'GLTF_SEPARATE'`) format. -/
def sample_buffer_settings_separate : BufferSettings :=
  ⟨"GLTF_SEPARATE", "outdir", "scene.bin"⟩

/-- A concrete repack configuration with `"Normalized"` position encoding. -/
def sample_repack_options : RepackOptions :=
  ⟨true, 8, 50, false, true, 14, 12, 8, 8, "Normalized", false⟩

/-! ## Claim C1: timeline frame restoration by `save` -/

/-- Claim C1 as stated is false on the code: `save` has no `try`/`finally`,
so when a stage raises the original frame is not restored.  Concretely, with
`gltf_current_frame` unset and a pre-export callback that raises, entering
`save` at frame 5 forces the frame to 0, and the exception propagates with
the frame still at 0, not 5. -/
theorem C1_counterexample :
    save cex_save_settings identity_stage identity_stage 5 =
      (some "RuntimeError: boom", 0) ∧
    (save cex_save_settings identity_stage identity_stage 5).2 ≠ 5 :=
  ⟨rfl, by decide⟩

/-- Claim C1, amended: the original frame is restored only on the success
path — whenever `save` returns success (`{'FINISHED'}`) and
`gltf_current_frame` is unset, the frame after `save` equals the frame
captured at entry; when a stage raises, the exception propagates without any
restoration (the frame stays wherever the failing stage left it, typically
0). -/
theorem C1_amended (settings : SaveSettings)
    (export_stage write_stage : FrameStage) (frame0 : Int)
    (hcf : settings.gltf_current_frame = false)
    (hok : (save settings export_stage write_stage frame0).1 = none) :
    (save settings export_stage write_stage frame0).2 = frame0 := by
  unfold save at hok ⊢
  rw [hcf] at hok ⊢
  simp only [Bool.not_false, if_true] at hok ⊢
  rcases h4 : stage_seq
      (stage_seq
        (stage_seq (run_callbacks settings.pre_export_callbacks 0) export_stage)
        (run_callbacks settings.post_export_callbacks))
      write_stage with ⟨e4, g4⟩
  rw [h4] at hok
  cases e4 with
  | some a => exact Option.noConfusion hok
  | none => rfl

/-- Witness for `C1_amended` at a concrete successful run entered at
frame 7. -/
theorem C1_witness :
    (save witness_save_settings identity_stage identity_stage 7).1 = none ∧
    (save witness_save_settings identity_stage identity_stage 7).2 = 7 :=
  ⟨rfl, C1_amended witness_save_settings identity_stage identity_stage 7 rfl rfl⟩

/-! ## Claim C2: idempotence of `__fix_json` -/

/-- Claim C2 as stated is false on the code: on the claim's own example
tree, one pass yields a dict whose child just became empty, and only a
second pass removes it, so applying `__fix_json` twice differs from applying
it once. -/
theorem C2_counterexample :
    __fix_json (.obj [("a", .obj [("b", .null)])]) = .ok (.obj [("a", .obj [])]) ∧
    __fix_json (.obj [("a", .obj [])]) = .ok (.obj []) ∧
    (__fix_json (.obj [("a", .obj [("b", .null)])])).bind __fix_json ≠
      __fix_json (.obj [("a", .obj [("b", .null)])]) := by
  refine ⟨rfl, rfl, fun h => ?_⟩
  have h' : (Except.ok (Json.obj []) : Except String Json) =
      .ok (.obj [("a", .obj [])]) := h
  simp at h'

/-! ## Claim C3: null-valued keys and `extras` -/

/-- Claim C3 as stated is false on the code: the `extras` special case in
`__fix_json` requires `value is not None`, so a null-valued `extras` key is
dropped like any other null-valued key, and the claim's own example
canonicalizes to the empty dict, not to a dict retaining `extras`. -/
theorem C3_counterexample :
    __fix_json (.obj [("name", .null), ("extras", .null)]) = .ok (.obj []) ∧
    __fix_json (.obj [("name", .null), ("extras", .null)]) ≠
      .ok (.obj [("extras", .null)]) := by
  refine ⟨rfl, fun h => ?_⟩
  have h' : (Except.ok (Json.obj []) : Except String Json) =
      .ok (.obj [("extras", .null)]) := h
  simp at h'

/-! ## Claim C4: repack failure containment -/

/-- Claim C4 as stated is false on the code: the `try` in
`__postprocess_with_gltfpack` catches only `subprocess.CalledProcessError`,
so when the gltfpack binary is missing, `subprocess.run` raises
`FileNotFoundError` and that exception propagates out instead of being
logged. -/
theorem C4_counterexample :
    __postprocess_with_gltfpack .launchFailure = .error .fileNotFoundError ∧
    __postprocess_with_gltfpack .launchFailure ≠ .ok () :=
  ⟨rfl, fun h => Except.noConfusion h⟩

/-- Claim C4, amended: a non-zero exit of the external tool is caught
(logged only) and `__postprocess_with_gltfpack` returns normally, as it does
on success; but a launch failure (missing binary) raises
`FileNotFoundError`, which is not an `AssertionError` either, so it passes
through `__write_file` undiagnosed and propagates out of the export call. -/
theorem C4_amended (code : Nat) :
    __postprocess_with_gltfpack .success = .ok () ∧
    __postprocess_with_gltfpack (.nonZeroExit code) = .ok () ∧
    __postprocess_with_gltfpack .launchFailure = .error .fileNotFoundError ∧
    __write_file (.ok ()) true (.nonZeroExit code) = (.ok (), false) ∧
    __write_file (.ok ()) true .launchFailure = (.error .fileNotFoundError, false) :=
  ⟨rfl, rfl, rfl, rfl, rfl⟩

/-! ## Claim C5: integral floats become integers -/

/-- Claim C5 as stated is false on the code: a float stored under a
non-null `extras` key is copied verbatim by `__fix_json` without recursion,
so an integral float there is not replaced by the equal integer — the tree
below keeps its float `5.0` even though `5.0` is integral. -/
theorem C5_counterexample :
    __fix_json (.obj [("extras", .float (.finite 5))]) =
      .ok (.obj [("extras", .float (.finite 5))]) ∧
    (5 : ℚ).den = 1 ∧
    Json.float (.finite 5) ≠ .int 5 :=
  ⟨rfl, rfl, fun h => Json.noConfusion h⟩

/-- Claim C5, amended: for every floating-point scalar to which `__fix_json`
is actually applied (everywhere except inside verbatim-preserved non-null
`extras` values), an integral value is replaced by the equal integer and a
non-integral value is returned unchanged; non-float scalars pass through
unchanged. -/
theorem C5_amended (q : ℚ) (n : Int) (s : String) (b : Bool) :
    __fix_json (.float (.finite q)) =
      .ok (if q.den = 1 then .int q.num else .float (.finite q)) ∧
    __fix_json (.int n) = .ok (.int n) ∧
    __fix_json (.str s) = .ok (.str s) ∧
    __fix_json (.bool b) = .ok (.bool b) ∧
    __fix_json .null = .ok .null := by
  refine ⟨?_, rfl, rfl, rfl, rfl⟩
  by_cases hq : q.den = 1 <;> simp [__fix_json, hq]

/-! ## Claim C6: empty collections and the allow-list -/

/-- Claim C6 as stated is false on the code: an `extras` key whose value is
an empty dict is preserved (the `extras` special case fires before the
empty-collection check), even though `extras` is not on the allow-list. -/
theorem C6_counterexample :
    __fix_json (.obj [("extras", .obj [])]) = .ok (.obj [("extras", .obj [])]) ∧
    __is_empty_collection (.obj []) = true ∧
    "extras" ∉ allowed_empty_collections :=
  ⟨rfl, rfl, by decide⟩

/-! ## Claim C7: the gltfpack argument list -/

/-- Claim C7: for every repack configuration whose position-encoding option
is a valid enum member, the source's argument vector has exactly the shape
the spec gives — optional flags present iff their booleans are set, segments
in the stated order, exactly one of the three mutually exclusive
position-encoding flags, and `-i <input> -o <output>` appended last. -/
theorem C7_command_shape (tool : String) (s : RepackOptions)
    (input output : String)
    (h : s.gltf_gltfpack_vpi ∈ (["Integer", "Normalized", "Floating-point"] : List String)) :
    gltfpack_command tool s input output = spec_gltfpack_cli tool s input output ∧
    (gltfpack_vpi_flag s = ["-vpi"] ∨ gltfpack_vpi_flag s = ["-vpn"] ∨
      gltfpack_vpi_flag s = ["-vpf"]) ∧
    gltfpack_command tool s input output =
      ([tool] ++ gltfpack_options s) ++ ["-i", input, "-o", output] := by
  refine ⟨?_, ?_, ?_⟩
  · simp [gltfpack_command, gltfpack_options, spec_gltfpack_cli,
      gltfpack_parameters, List.append_assoc]
  · simp only [List.mem_cons, List.mem_singleton, List.not_mem_nil, or_false] at h
    rcases h with h | h | h
    · exact Or.inl (by simp [gltfpack_vpi_flag, h])
    · exact Or.inr (Or.inl (by simp [gltfpack_vpi_flag, h]))
    · exact Or.inr (Or.inr (by simp [gltfpack_vpi_flag, h]))
  · simp [gltfpack_command, gltfpack_parameters, List.append_assoc]

/-- Witness for `C7_command_shape` at a concrete configuration. -/
theorem C7_witness :
    sample_repack_options.gltf_gltfpack_vpi ∈
      (["Integer", "Normalized", "Floating-point"] : List String) ∧
    gltfpack_command "gltfpack" sample_repack_options "in.gltf" "out.gltf" =
      spec_gltfpack_cli "gltfpack" sample_repack_options "in.gltf" "out.gltf" :=
  ⟨by decide,
   (C7_command_shape "gltfpack" sample_repack_options "in.gltf" "out.gltf" (by decide)).1⟩

/-! ## Claim C8: `AssertionError` diagnostics in `__write_file` -/

/-- Claim C8: the result of `__write_file` is always the `try` body's own
outcome — an `AssertionError` is re-raised as itself and any other exception
propagates unchanged — and the verbose line-by-line diagnostic runs exactly
when the body raised an `AssertionError`. -/
theorem C8_assertion_diagnostics (s : Except PyExc Unit) (u : Bool)
    (o : GltfpackRunOutcome) :
    (__write_file s u o).1 = __write_file_body s u o ∧
    ((__write_file s u o).2 = true ↔
      ∃ m, __write_file_body s u o = .error (.assertionError m)) := by
  unfold __write_file
  cases h : __write_file_body s u o with
  | ok v => cases v; simp
  | error e => cases e <;> simp

/-! ## Claim C9: totality of `__fix_json` and non-finite floats -/

/-- Claim C9 as stated is false on the code in one corner: a NaN inside a
non-null `extras` value is copied verbatim without recursion, so this input
contains a NaN yet `__fix_json` returns normally instead of raising. -/
theorem C9_counterexample :
    __fix_json (.obj [("extras", .arr [.float .nan])]) =
      .ok (.obj [("extras", .arr [.float .nan])]) ∧
    all_floats_finite (.obj [("extras", .arr [.float .nan])]) = false :=
  ⟨rfl, rfl⟩

/-! ## Claim C10: `__create_buffer` and the output format -/

/-- Claim C10: in every format other than `'GLB'` the buffer value handed on
by `__create_buffer` is the empty byte string; in `'GLB'` format it is the
payload returned by `finalize_buffer(..., is_glb=True)`. -/
theorem C10_create_buffer (exporter : GlTF2ExporterModel)
    (settings : BufferSettings) :
    (settings.gltf_format ≠ "GLB" → __create_buffer exporter settings = []) ∧
    (settings.gltf_format = "GLB" →
      __create_buffer exporter settings =
        exporter.finalize_buffer settings.gltf_filedirectory none true) := by
  constructor
  · intro h
    unfold __create_buffer
    rw [if_neg h]
    split <;> rfl
  · intro h
    unfold __create_buffer
    rw [if_pos h]

/-- Witness for `C10_create_buffer` in the embedded, separate and GLB
formats. -/
theorem C10_witness :
    __create_buffer sample_exporter sample_buffer_settings_embedded = [] ∧
    __create_buffer sample_exporter sample_buffer_settings_separate = [] ∧
    __create_buffer sample_exporter sample_buffer_settings_glb = [1, 2, 3] :=
  ⟨(C10_create_buffer sample_exporter sample_buffer_settings_embedded).1 (by decide),
   (C10_create_buffer sample_exporter sample_buffer_settings_separate).1 (by decide),
   ((C10_create_buffer sample_exporter sample_buffer_settings_glb).2 rfl).trans rfl⟩

/-! ## Totality of `__fix_json` on all-finite trees (for claim C9) -/

mutual

theorem fix_total : ∀ x : Json, all_floats_finite x = true → ∃ y, __fix_json x = .ok y
  | .null, _ => ⟨.null, rfl⟩
  | .bool b, _ => ⟨.bool b, rfl⟩
  | .int n, _ => ⟨.int n, rfl⟩
  | .str s, _ => ⟨.str s, rfl⟩
  | .float (.finite q), _ => by
      by_cases hq : q.den = 1
      · exact ⟨.int q.num, by simp [__fix_json, hq]⟩
      · exact ⟨.float (.finite q), by simp [__fix_json, hq]⟩
  | .float .nan, h => by simp [all_floats_finite] at h
  | .float .inf, h => by simp [all_floats_finite] at h
  | .float .ninf, h => by simp [all_floats_finite] at h
  | .obj kvs, h => by
      obtain ⟨kvs', hk⟩ := fix_total_obj kvs (by simpa [all_floats_finite] using h)
      exact ⟨.obj kvs', by simp [__fix_json, hk]⟩
  | .arr xs, h => by
      obtain ⟨xs', hk⟩ := fix_total_list xs (by simpa [all_floats_finite] using h)
      exact ⟨.arr xs', by simp [__fix_json, hk]⟩

theorem fix_total_obj : ∀ kvs : List (String × Json),
    all_floats_finite_obj kvs = true → ∃ kvs', __fix_json_obj kvs = .ok kvs'
  | [], _ => ⟨[], rfl⟩
  | (key, value) :: rest, h => by
      have h' := h
      simp only [all_floats_finite_obj, Bool.and_eq_true] at h'
      obtain ⟨rest', hrest⟩ := fix_total_obj rest h'.2
      by_cases hex : key = "extras" ∧ value.is_none = false
      · exact ⟨(key, value) :: rest', by
          unfold __fix_json_obj
          rw [if_pos hex, hrest]⟩
      · by_cases hinc : __should_include_json_value key value = true
        · obtain ⟨v', hv'⟩ := fix_total value h'.1
          exact ⟨(key, v') :: rest', by
            unfold __fix_json_obj
            rw [if_neg hex, if_pos hinc, hv', hrest]⟩
        · exact ⟨rest', by
            unfold __fix_json_obj
            rw [if_neg hex, if_neg hinc, hrest]⟩

theorem fix_total_list : ∀ xs : List Json,
    all_floats_finite_list xs = true → ∃ ys, __fix_json_list xs = .ok ys
  | [], _ => ⟨[], rfl⟩
  | v :: rest, h => by
      have h' := h
      simp only [all_floats_finite_list, Bool.and_eq_true] at h'
      obtain ⟨v', hv'⟩ := fix_total v h'.1
      obtain ⟨rest', hrest⟩ := fix_total_list rest h'.2
      exact ⟨v' :: rest', by
        unfold __fix_json_list
        rw [hv', hrest]⟩

end

/-- Claim C9, amended: under the precondition that every float in the tree
is finite, `__fix_json` is total (always returns normally); a non-finite
float reached by the recursion is fed to `int()`, which raises — `ValueError`
for NaN, `OverflowError` for the infinities.  (A non-finite float hidden in
a verbatim-preserved non-null `extras` value is never reached; see the
counterexample.) -/
theorem C9_amended :
    (∀ x, all_floats_finite x = true → ∃ y, __fix_json x = .ok y) ∧
    __fix_json (.float .nan) = .error "ValueError: cannot convert float NaN to integer" ∧
    __fix_json (.float .inf) =
      .error "OverflowError: cannot convert float infinity to integer" ∧
    __fix_json (.float .ninf) =
      .error "OverflowError: cannot convert float infinity to integer" :=
  ⟨fix_total, rfl, rfl, rfl⟩

/-- Witness for `C9_amended` at an all-finite concrete tree. -/
theorem C9_witness :
    all_floats_finite (.obj [("a", .arr [.float (.finite 5), .str "x"])]) = true ∧
    ∃ y, __fix_json (.obj [("a", .arr [.float (.finite 5), .str "x"])]) = .ok y :=
  ⟨rfl, C9_amended.1 (.obj [("a", .arr [.float (.finite 5), .str "x"])]) rfl⟩

/-! ## No null survives a dict pass (for claim C3) -/

/-- `__fix_json` never turns a non-null node into null. -/
theorem fix_json_not_none (x y : Json) (hx : x.is_none = false)
    (h : __fix_json x = .ok y) : y.is_none = false := by
  cases x with
  | null => simp [Json.is_none] at hx
  | bool b => injection h with h'; subst h'; rfl
  | int n => injection h with h'; subst h'; rfl
  | str s => injection h with h'; subst h'; rfl
  | float pf =>
    cases pf with
    | finite q =>
      unfold __fix_json at h
      split at h <;> (injection h with h'; subst h'; rfl)
    | nan => exact Except.noConfusion h
    | inf => exact Except.noConfusion h
    | ninf => exact Except.noConfusion h
  | obj kvs =>
    unfold __fix_json at h
    cases hk : __fix_json_obj kvs with
    | error e => rw [hk] at h; exact Except.noConfusion h
    | ok kvs' => rw [hk] at h; injection h with h'; subst h'; rfl
  | arr xs =>
    unfold __fix_json at h
    cases hk : __fix_json_list xs with
    | error e => rw [hk] at h; exact Except.noConfusion h
    | ok xs' => rw [hk] at h; injection h with h'; subst h'; rfl

/-- A `True` result of `__should_include_json_value` means the value was not
`None`. -/
theorem should_include_not_none (key : String) (value : Json)
    (h : __should_include_json_value key value = true) : value.is_none = false := by
  cases hn : value.is_none with
  | false => rfl
  | true => simp [__should_include_json_value, hn] at h

/-- Claim C3, amended: every null-valued key is removed — including a
null-valued `extras` key, since the `extras` special case requires
`value is not None` — so no null value survives a dict pass; and an `extras`
key with a non-null value is preserved verbatim at its position. -/
theorem C3_amended :
    (∀ kvs kvs', __fix_json_obj kvs = .ok kvs' →
      ∀ kv ∈ kvs', (kv.2).is_none = false) ∧
    (∀ rest, __fix_json_obj (("extras", Json.null) :: rest) = __fix_json_obj rest) ∧
    (∀ v rest rest', v.is_none = false → __fix_json_obj rest = .ok rest' →
      __fix_json_obj (("extras", v) :: rest) = .ok (("extras", v) :: rest')) := by
  refine ⟨?_, ?_, ?_⟩
  · intro kvs
    induction kvs with
    | nil =>
      intro kvs' h kv hm
      injection h with h'
      subst h'
      cases hm
    | cons head tail ih =>
      intro kvs' h kv hm
      obtain ⟨key, value⟩ := head
      unfold __fix_json_obj at h
      by_cases hex : key = "extras" ∧ value.is_none = false
      · rw [if_pos hex] at h
        cases hr : __fix_json_obj tail with
        | error e => rw [hr] at h; exact Except.noConfusion h
        | ok rest' =>
          rw [hr] at h
          injection h with h'
          subst h'
          cases hm with
          | head => exact hex.2
          | tail _ hm' => exact ih rest' hr kv hm'
      · rw [if_neg hex] at h
        by_cases hinc : __should_include_json_value key value = true
        · rw [if_pos hinc] at h
          cases hfv : __fix_json value with
          | error e => rw [hfv] at h; exact Except.noConfusion h
          | ok v' =>
            rw [hfv] at h
            cases hr : __fix_json_obj tail with
            | error e => rw [hr] at h; exact Except.noConfusion h
            | ok rest' =>
              rw [hr] at h
              injection h with h'
              subst h'
              cases hm with
              | head =>
                exact fix_json_not_none value v'
                  (should_include_not_none key value hinc) hfv
              | tail _ hm' => exact ih rest' hr kv hm'
        · rw [if_neg hinc] at h
          exact ih kvs' h kv hm
  · intro rest
    simp [__fix_json_obj, __should_include_json_value, Json.is_none]
  · intro v rest rest' hv hr
    unfold __fix_json_obj
    rw [if_pos ⟨rfl, hv⟩, hr]

/-- Witness for `C3_amended`: a non-null `extras` entry is preserved, and
its surviving value is indeed not null. -/
theorem C3_witness :
    __fix_json_obj [("extras", Json.str "user data")] =
      .ok [("extras", Json.str "user data")] ∧
    (Json.str "user data").is_none = false :=
  ⟨C3_amended.2.2 (Json.str "user data") [] [] rfl rfl, rfl⟩

/-! ## Idempotence on trees with no nulls and no empty collections
(for claim C2) -/

/-- A clean node is neither null nor an empty collection. -/
theorem clean_shape (v : Json) (h : clean v = true) :
    v.is_none = false ∧ __is_empty_collection v = false := by
  cases v with
  | null => simp [clean] at h
  | obj kvs =>
    cases kvs with
    | nil => simp [clean] at h
    | cons a l => exact ⟨rfl, rfl⟩
  | arr xs =>
    cases xs with
    | nil => simp [clean] at h
    | cons a l => exact ⟨rfl, rfl⟩
  | bool b => exact ⟨rfl, rfl⟩
  | int n => exact ⟨rfl, rfl⟩
  | float f => exact ⟨rfl, rfl⟩
  | str s => exact ⟨rfl, rfl⟩

/-- A clean value always passes `__should_include_json_value`. -/
theorem should_include_of_clean (key : String) (v : Json) (h : clean v = true) :
    __should_include_json_value key v = true := by
  obtain ⟨h1, h2⟩ := clean_shape v h
  simp [__should_include_json_value, h1, h2]

mutual

theorem fix_fix : ∀ x : Json, clean x = true → ∀ y, __fix_json x = .ok y →
    __fix_json y = .ok y ∧ y.is_none = false ∧ __is_empty_collection y = false
  | .null, hc => by simp [clean] at hc
  | .bool b, _ => fun y h => by
      injection h with h'; subst h'; exact ⟨rfl, rfl, rfl⟩
  | .int n, _ => fun y h => by
      injection h with h'; subst h'; exact ⟨rfl, rfl, rfl⟩
  | .str s, _ => fun y h => by
      injection h with h'; subst h'; exact ⟨rfl, rfl, rfl⟩
  | .float pf, _ => fun y h => by
      cases pf with
      | finite q =>
        unfold __fix_json at h
        by_cases hq : q.den = 1
        · rw [if_pos hq] at h
          injection h with h'; subst h'
          exact ⟨rfl, rfl, rfl⟩
        · rw [if_neg hq] at h
          injection h with h'; subst h'
          exact ⟨by simp [__fix_json, hq], rfl, rfl⟩
      | nan => exact Except.noConfusion h
      | inf => exact Except.noConfusion h
      | ninf => exact Except.noConfusion h
  | .obj kvs, hc => fun y h => by
      have hne : kvs.isEmpty = false := by
        cases kvs with
        | nil => simp [clean] at hc
        | cons a l => rfl
      have hco : clean_obj kvs = true := by
        have h' := hc
        simp only [clean, Bool.and_eq_true] at h'
        exact h'.2
      unfold __fix_json at h
      cases hk : __fix_json_obj kvs with
      | error e => rw [hk] at h; exact Except.noConfusion h
      | ok kvs' =>
        rw [hk] at h
        injection h with h'; subst h'
        obtain ⟨h2, hlen⟩ := fix_fix_obj kvs hco kvs' hk
        refine ⟨by simp [__fix_json, h2], rfl, ?_⟩
        cases kvs' with
        | nil =>
          cases kvs with
          | nil => simp [List.isEmpty] at hne
          | cons a l => simp at hlen
        | cons a l => rfl
  | .arr xs, hc => fun y h => by
      have hne : xs.isEmpty = false := by
        cases xs with
        | nil => simp [clean] at hc
        | cons a l => rfl
      have hcl : clean_list xs = true := by
        have h' := hc
        simp only [clean, Bool.and_eq_true] at h'
        exact h'.2
      unfold __fix_json at h
      cases hk : __fix_json_list xs with
      | error e => rw [hk] at h; exact Except.noConfusion h
      | ok xs' =>
        rw [hk] at h
        injection h with h'; subst h'
        obtain ⟨h2, hlen⟩ := fix_fix_list xs hcl xs' hk
        refine ⟨by simp [__fix_json, h2], rfl, ?_⟩
        cases xs' with
        | nil =>
          cases xs with
          | nil => simp [List.isEmpty] at hne
          | cons a l => simp at hlen
        | cons a l => rfl

theorem fix_fix_obj : ∀ kvs : List (String × Json), clean_obj kvs = true →
    ∀ kvs', __fix_json_obj kvs = .ok kvs' →
      __fix_json_obj kvs' = .ok kvs' ∧ kvs'.length = kvs.length
  | [], _ => fun kvs' h => by
      injection h with h'; subst h'; exact ⟨rfl, rfl⟩
  | (key, value) :: rest, hc => fun kvs' h => by
      have hv : clean value = true := by
        have h' := hc
        simp only [clean_obj, Bool.and_eq_true] at h'
        exact h'.1
      have hr : clean_obj rest = true := by
        have h' := hc
        simp only [clean_obj, Bool.and_eq_true] at h'
        exact h'.2
      unfold __fix_json_obj at h
      by_cases hex : key = "extras" ∧ value.is_none = false
      · rw [if_pos hex] at h
        cases hk : __fix_json_obj rest with
        | error e => rw [hk] at h; exact Except.noConfusion h
        | ok rest' =>
          rw [hk] at h
          injection h with h'; subst h'
          obtain ⟨h2, hlen⟩ := fix_fix_obj rest hr rest' hk
          constructor
          · unfold __fix_json_obj
            rw [if_pos hex, h2]
          · simp [hlen]
      · rw [if_neg hex] at h
        have hinc : __should_include_json_value key value = true :=
          should_include_of_clean key value hv
        rw [if_pos hinc] at h
        cases hfv : __fix_json value with
        | error e => rw [hfv] at h; exact Except.noConfusion h
        | ok v' =>
          rw [hfv] at h
          cases hk : __fix_json_obj rest with
          | error e => rw [hk] at h; exact Except.noConfusion h
          | ok rest' =>
            rw [hk] at h
            injection h with h'; subst h'
            obtain ⟨hfix2, hn', he'⟩ := fix_fix value hv v' hfv
            obtain ⟨h2, hlen⟩ := fix_fix_obj rest hr rest' hk
            have hkey : key ≠ "extras" := fun hkk =>
              hex ⟨hkk, (clean_shape value hv).1⟩
            constructor
            · unfold __fix_json_obj
              rw [if_neg (fun hcon => hkey hcon.1)]
              rw [if_pos (show __should_include_json_value key v' = true by
                    simp [__should_include_json_value, hn', he'])]
              rw [hfix2, h2]
            · simp [hlen]

theorem fix_fix_list : ∀ xs : List Json, clean_list xs = true →
    ∀ ys, __fix_json_list xs = .ok ys →
      __fix_json_list ys = .ok ys ∧ ys.length = xs.length
  | [], _ => fun ys h => by
      injection h with h'; subst h'; exact ⟨rfl, rfl⟩
  | v :: rest, hc => fun ys h => by
      have hv : clean v = true := by
        have h' := hc
        simp only [clean_list, Bool.and_eq_true] at h'
        exact h'.1
      have hr : clean_list rest = true := by
        have h' := hc
        simp only [clean_list, Bool.and_eq_true] at h'
        exact h'.2
      unfold __fix_json_list at h
      cases hfv : __fix_json v with
      | error e => rw [hfv] at h; exact Except.noConfusion h
      | ok v' =>
        rw [hfv] at h
        cases hk : __fix_json_list rest with
        | error e => rw [hk] at h; exact Except.noConfusion h
        | ok rest' =>
          rw [hk] at h
          injection h with h'; subst h'
          obtain ⟨hfix2, _, _⟩ := fix_fix v hv v' hfv
          obtain ⟨h2, hlen⟩ := fix_fix_list rest hr rest' hk
          constructor
          · unfold __fix_json_list
            rw [hfix2, h2]
          · simp [hlen]

end

/-- Claim C2, amended: canonicalization is idempotent on every tree that
contains no null value and no empty collection anywhere (`clean`); on such
trees a second `__fix_json` pass returns the first pass's result unchanged.
In general idempotence fails, because a mapping that becomes empty only
after its own null keys are dropped is removed only by the next pass (see
the counterexample). -/
theorem C2_amended (x : Json) (hc : clean x = true) :
    (__fix_json x).bind __fix_json = __fix_json x := by
  cases hx : __fix_json x with
  | error e => rfl
  | ok y => exact (fix_fix x hc y hx).1

/-- Witness for `C2_amended` at a concrete clean tree. -/
theorem C2_witness :
    clean (.obj [("name", .str "mesh"), ("count", .int 2)]) = true ∧
    (__fix_json (.obj [("name", .str "mesh"), ("count", .int 2)])).bind __fix_json =
      __fix_json (.obj [("name", .str "mesh"), ("count", .int 2)]) :=
  ⟨rfl, C2_amended (.obj [("name", .str "mesh"), ("count", .int 2)]) rfl⟩

/-! ## Empty collections and the allow-list (for claim C6) -/

/-- Claim C6, amended: for every mapping key other than a non-null `extras`,
an empty-collection value causes the key to be dropped exactly when the key
is not `KHR_materials_unlit`, and the allow-list is exactly
`["KHR_materials_unlit"]`; the claim's two examples hold.  (An `extras` key
whose value is an empty collection is nevertheless preserved; see the
counterexample.) -/
theorem C6_amended :
    allowed_empty_collections = ["KHR_materials_unlit"] ∧
    (∀ key : String,
      __should_include_json_value key (.obj []) = (key == "KHR_materials_unlit")) ∧
    (∀ key : String,
      __should_include_json_value key (.arr []) = (key == "KHR_materials_unlit")) ∧
    (∀ (key : String) (rest : List (String × Json)),
      key ≠ "extras" → key ≠ "KHR_materials_unlit" →
      __fix_json_obj ((key, .obj []) :: rest) = __fix_json_obj rest ∧
      __fix_json_obj ((key, .arr []) :: rest) = __fix_json_obj rest) ∧
    __fix_json (.obj [("extensions", .obj []), ("KHR_materials_unlit", .obj [])]) =
      .ok (.obj [("KHR_materials_unlit", .obj [])]) ∧
    __fix_json (.obj [("samplers", .arr [])]) = .ok (.obj []) := by
  refine ⟨rfl, ?_, ?_, ?_, rfl, rfl⟩
  · intro key
    by_cases h : key = "KHR_materials_unlit" <;>
      simp [__should_include_json_value, __is_empty_collection, Json.is_none,
        allowed_empty_collections, h]
  · intro key
    by_cases h : key = "KHR_materials_unlit" <;>
      simp [__should_include_json_value, __is_empty_collection, Json.is_none,
        allowed_empty_collections, h]
  · intro key rest hk1 hk2
    constructor
    · conv_lhs => unfold __fix_json_obj
      rw [if_neg (fun hcon => hk1 hcon.1)]
      rw [if_neg (show ¬__should_include_json_value key (.obj []) = true by
            simp [__should_include_json_value, __is_empty_collection, Json.is_none,
              allowed_empty_collections, hk2])]
    · conv_lhs => unfold __fix_json_obj
      rw [if_neg (fun hcon => hk1 hcon.1)]
      rw [if_neg (show ¬__should_include_json_value key (.arr []) = true by
            simp [__should_include_json_value, __is_empty_collection, Json.is_none,
              allowed_empty_collections, hk2])]

/-- Witness for `C6_amended`: a non-allow-listed key with an empty list
value is dropped. -/
theorem C6_witness :
    __fix_json_obj [("samplers", Json.arr [])] = .ok [] :=
  ((C6_amended.2.2.2.1 "samplers" [] (by decide) (by decide)).2).trans rfl

end GltfExport
